import Mathlib

/-!
Verification of the Squonk2 Python client (squonk2-python-client).

The repository is a thin client over two REST services (a Data Manager and an
Account Server) plus a Keycloak authentication helper.  The Python modules
`squonk2/dm_api.py`, `squonk2/as_api.py` and `squonk2/auth.py` are not part of
the source tree available here (only the repository documentation, README and
example descriptions are), so the client behaviour is modelled from the
specification and from the repository's own documentation (`docs/dmapi.rst`,
the Account-Server page, the Connecting/Errors pages and `README.rst`), which
fix the environment-variable names, the SSL-flag default `"yes"`, the
`DmApiRv` result shape and the `"No API URL defined"` error behaviour.
-/

set_option autoImplicit false

/-- JSON values as they appear in the client's contract: response payloads and
request bodies are JSON objects (modelled as association lists) whose leaves
we keep as strings. -/
inductive Json where
  | str (s : String) : Json
  | obj (fields : List (String × Json)) : Json
deriving Repr

/-- Whether a JSON object has a field with the given key. -/
def Json.hasKey : Json → String → Bool
  | Json.obj fields, k => fields.any fun p => p.1 == k
  | Json.str _, _ => false

/-- Look a key up in a JSON object. -/
def Json.lookup : Json → String → Option Json
  | Json.obj fields, k => (fields.find? fun p => p.1 == k).map Prod.snd
  | Json.str _, _ => none

/-- The uniform result value: a `success` flag and a `msg` payload
(the decoded response on success, an error description on failure). -/
structure DmApiRv where
  success : Bool
  msg : Json
deriving Repr

/-- One client's configuration: the API base URL (absent until configured)
and the SSL-certificate-verification flag. -/
structure ApiConfig where
  apiUrl : Option String
  verifySslCert : Bool
deriving Repr

/-- The process-wide state: the Data Manager client's configuration and the
Account Server client's configuration, held independently. -/
structure ClientState where
  dm : ApiConfig
  asCfg : ApiConfig
deriving Repr

/-- An outgoing HTTP request as the transport observes it: the full URL, the
bearer token attached, the TLS-verification setting and an optional JSON
body. -/
structure HttpRequest where
  url : String
  bearerToken : String
  verify : Bool
  body : Option Json
deriving Repr

/-- What the transport reports for a single request: an HTTP response with a
status code and decoded JSON body, or a network-level failure. -/
inductive HttpOutcome where
  | response (status : Nat) (body : Json) : HttpOutcome
  | networkFailure (desc : String) : HttpOutcome
deriving Repr

/-- The network environment: how the remote server answers each request. -/
def Net : Type := HttpRequest → HttpOutcome

/-- What a client operation call produces besides requests: either a returned
`DmApiRv` result value, or a raised exception. -/
inductive CallOutcome where
  | result (rv : DmApiRv) : CallOutcome
  | raised (exc : String) : CallOutcome
deriving Repr

/-- A client operation call, observationally: its outcome and the list of
HTTP requests it issued, in order. -/
structure CallEffect where
  outcome : CallOutcome
  requests : List HttpRequest
deriving Repr

/-- Modelled from the spec: the error message documented in the repository's
Errors page for a call made before the API URL is configured
(`rv.msg` is `{'error': 'No API URL defined'}`). -/
def noApiUrlError : String := "No API URL defined"

/-- Modelled from the spec: the error description built for a non-2xx HTTP
response (`{"error": "..."}` with a non-empty description). -/
def statusErrorText (status : Nat) : String :=
  "API error, status=" ++ toString status

/-- Modelled from the spec: the error description built when the network call
itself fails. -/
def connectionErrorText (desc : String) : String :=
  "ConnectionError: " ++ desc

/-- Build the outgoing request from the configured base URL, the endpoint
path suffix, the caller's bearer token, the configured TLS setting and the
optional body. -/
def buildRequest (url pathSuffix token : String) (verify : Bool)
    (body : Option Json) : HttpRequest :=
  { url := url ++ pathSuffix, bearerToken := token, verify := verify,
    body := body }

/-- Modelled from the spec: the shared request wrapper used by every client
operation (`squonk2/dm_api.py` / `squonk2/as_api.py` are missing from the
tree).  Per spec section 4.2 and the repository docs: if no base URL is
configured the call returns, without any network traffic, a result with
`success = false` and `msg = {'error': 'No API URL defined'}`; otherwise it
issues exactly one request carrying the bearer token and the configured TLS
setting, then maps HTTP 2xx to `success = true` with the decoded body, and a
non-2xx status or a network failure to `success = false` with an `error`
description.  API-level failures never raise. -/
def noUrlEffect : CallEffect :=
  { outcome := CallOutcome.result
      { success := false,
        msg := Json.obj [("error", Json.str noApiUrlError)] },
    requests := [] }

/-- Send one request and map the transport's answer into the uniform result:
HTTP 2xx yields `success = true` with the decoded body; a non-2xx status or
a network failure yields `success = false` with an `error` description. -/
def sendRequest (req : HttpRequest) (net : Net) : CallEffect :=
  match net req with
  | HttpOutcome.response status respBody =>
    if 200 ≤ status ∧ status < 300 then
      { outcome := CallOutcome.result { success := true, msg := respBody },
        requests := [req] }
    else
      { outcome := CallOutcome.result
          { success := false,
            msg := Json.obj
              [("error", Json.str (statusErrorText status))] },
        requests := [req] }
  | HttpOutcome.networkFailure desc =>
    { outcome := CallOutcome.result
        { success := false,
          msg := Json.obj
            [("error", Json.str (connectionErrorText desc))] },
      requests := [req] }

def apiRequest (cfg : ApiConfig) (net : Net) (pathSuffix token : String)
    (body : Option Json) : CallEffect :=
  match cfg.apiUrl with
  | none => noUrlEffect
  | some url =>
    sendRequest (buildRequest url pathSuffix token cfg.verifySslCert body)
      net

/-- Modelled from the spec: `DmApi.set_api_url(url, verify_ssl_cert)`
overwrites the Data Manager client's process-wide configuration; no network
request is issued. -/
def DmApi.set_api_url (s : ClientState) (url : String)
    (verify_ssl_cert : Bool) : ClientState × List HttpRequest :=
  ({ s with dm := { apiUrl := some url, verifySslCert := verify_ssl_cert } },
   [])

/-- Modelled from the spec: `AsApi.set_api_url(url, verify_ssl_cert)`
overwrites the Account Server client's process-wide configuration; no network
request is issued. -/
def AsApi.set_api_url (s : ClientState) (url : String)
    (verify_ssl_cert : Bool) : ClientState × List HttpRequest :=
  ({ s with
     asCfg := { apiUrl := some url, verifySslCert := verify_ssl_cert } },
   [])

/-- Modelled from the spec: the ping endpoint's path suffix (the concrete
path is opaque to the contract). -/
def pingPath : String := "/api"

/-- Modelled from the spec: `DmApi.ping(token)`; reads the Data Manager
configuration, mutates nothing. -/
def DmApi.ping (s : ClientState) (net : Net) (token : String) :
    ClientState × CallEffect :=
  (s, apiRequest s.dm net pingPath token none)

/-- Modelled from the spec: `AsApi.ping(token)`; reads the Account Server
configuration, mutates nothing. -/
def AsApi.ping (s : ClientState) (net : Net) (token : String) :
    ClientState × CallEffect :=
  (s, apiRequest s.asCfg net pingPath token none)

/-- Modelled from the spec: the instance-creation endpoint's path suffix for
a given project (the concrete path is opaque to the contract). -/
def startInstancePath (project_id : String) : String :=
  "/instance/" ++ project_id

/-- Modelled from the spec: the JSON body sent by `start_job_instance`,
carrying the instance name and the job specification mapping. -/
def startJobBody (name : String) (specMap : List (String × Json)) : Json :=
  Json.obj [("name", Json.str name), ("specification", Json.obj specMap)]

/-- Modelled from the spec: `DmApi.start_job_instance(token, project_id,
name, specification)`; reads the Data Manager configuration, mutates
nothing, and on success returns the server's payload (documented to carry
the assigned `task_id` and `instance_id`). -/
def DmApi.start_job_instance (s : ClientState) (net : Net)
    (token project_id name : String) (specMap : List (String × Json)) :
    ClientState × CallEffect :=
  (s, apiRequest s.dm net (startInstancePath project_id) token
    (some (startJobBody name specMap)))

/-- Modelled from the spec: the environment variables read at module load,
named as in the repository docs (`docs/dmapi.rst` and the Account-Server
page).  `none` means the variable is unset. -/
structure Environ where
  SQUONK2_DMAPI_URL : Option String
  SQUONK2_DMAPI_VERIFY_SSL_CERT : Option String
  SQUONK2_ASAPI_URL : Option String
  SQUONK2_ASAPI_VERIFY_SSL_CERT : Option String
deriving Repr

/-- Modelled from the spec: SSL verification is enabled when the controlling
environment variable holds `"yes"`, its default value; setting it to
anything other than `"yes"` disables verification. -/
def envVerifySsl (v : Option String) : Bool :=
  v.getD "yes" == "yes"

/-- Modelled from the spec: the Data Manager configuration sourced from the
environment at module load. -/
def initDmConfig (env : Environ) : ApiConfig :=
  { apiUrl := env.SQUONK2_DMAPI_URL,
    verifySslCert := envVerifySsl env.SQUONK2_DMAPI_VERIFY_SSL_CERT }

/-- Modelled from the spec: the Account Server configuration sourced from
the environment at module load. -/
def initAsConfig (env : Environ) : ApiConfig :=
  { apiUrl := env.SQUONK2_ASAPI_URL,
    verifySslCert := envVerifySsl env.SQUONK2_ASAPI_VERIFY_SSL_CERT }

/-- Modelled from the spec: the process-wide state right after module load,
before any explicit configuration call. -/
def initState (env : Environ) : ClientState :=
  { dm := initDmConfig env, asCfg := initAsConfig env }

/-- The credentials the auth helper presents to the identity provider. -/
structure AuthRequest where
  authUrl : String
  realm : String
  clientId : String
  username : String
  password : String
deriving Repr

/-- How the identity provider answers a token request: a token, a rejection
of the credentials, or unreachability. -/
inductive IdpOutcome where
  | issued (token : String) : IdpOutcome
  | rejected (why : String) : IdpOutcome
  | unreachable (why : String) : IdpOutcome
deriving Repr

/-- What `Auth.get_access_token` produces: a token string, or a raised
`AuthenticationError`. -/
inductive AuthResult where
  | token (t : String) : AuthResult
  | authenticationError (desc : String) : AuthResult
deriving Repr

/-- The request `Auth.get_access_token` builds from its arguments. -/
def mkAuthRequest (authUrl realm clientId username password : String) :
    AuthRequest :=
  { authUrl := authUrl, realm := realm, clientId := clientId,
    username := username, password := password }

/-- Modelled from the spec: `Auth.get_access_token(auth_url, realm,
client_id, username, password)` (`squonk2/auth.py` is missing from the
tree).  It contacts the identity provider exactly once; it returns the
issued token string, and raises `AuthenticationError` when the provider
rejects the credentials or is unreachable.  No retry. -/
def Auth.get_access_token (idp : AuthRequest → IdpOutcome)
    (authUrl realm clientId username password : String) :
    AuthResult × List AuthRequest :=
  match idp (mkAuthRequest authUrl realm clientId username password) with
  | IdpOutcome.issued t =>
    (AuthResult.token t,
     [mkAuthRequest authUrl realm clientId username password])
  | IdpOutcome.rejected why =>
    (AuthResult.authenticationError ("rejected: " ++ why),
     [mkAuthRequest authUrl realm clientId username password])
  | IdpOutcome.unreachable why =>
    (AuthResult.authenticationError ("unreachable: " ++ why),
     [mkAuthRequest authUrl realm clientId username password])

/-! ## Helper lemmas -/

theorem length_append_pos_left (a b : String) (h : 0 < a.length) :
    0 < (a ++ b).length := by
  rw [String.length_append]
  omega

theorem statusErrorText_length (status : Nat) :
    0 < (statusErrorText status).length :=
  length_append_pos_left "API error, status=" (toString status) (by decide)

theorem connectionErrorText_length (desc : String) :
    0 < (connectionErrorText desc).length :=
  length_append_pos_left "ConnectionError: " desc (by decide)

theorem apiRequest_none (cfg : ApiConfig) (net : Net) (p token : String)
    (body : Option Json) (h : cfg.apiUrl = none) :
    apiRequest cfg net p token body = noUrlEffect := by
  obtain ⟨a, v⟩ := cfg
  cases a with
  | none => rfl
  | some u => exact Option.noConfusion h

theorem apiRequest_some (cfg : ApiConfig) (net : Net) (p token : String)
    (body : Option Json) (url : String) (h : cfg.apiUrl = some url) :
    apiRequest cfg net p token body =
      sendRequest (buildRequest url p token cfg.verifySslCert body) net := by
  obtain ⟨a, v⟩ := cfg
  cases a with
  | none => exact Option.noConfusion h
  | some u =>
    have hu : u = url := Option.some.inj h
    subst hu
    rfl

theorem sendRequest_response (req : HttpRequest) (net : Net) (status : Nat)
    (respBody : Json) (h : net req = HttpOutcome.response status respBody) :
    sendRequest req net =
      if 200 ≤ status ∧ status < 300 then
        { outcome := CallOutcome.result { success := true, msg := respBody },
          requests := [req] }
      else
        { outcome := CallOutcome.result
            { success := false,
              msg := Json.obj
                [("error", Json.str (statusErrorText status))] },
          requests := [req] } := by
  unfold sendRequest
  rw [h]

theorem sendRequest_failure (req : HttpRequest) (net : Net) (desc : String)
    (h : net req = HttpOutcome.networkFailure desc) :
    sendRequest req net =
      { outcome := CallOutcome.result
          { success := false,
            msg := Json.obj
              [("error", Json.str (connectionErrorText desc))] },
        requests := [req] } := by
  unfold sendRequest
  rw [h]

theorem sendRequest_requests (req : HttpRequest) (net : Net) :
    (sendRequest req net).requests = [req] := by
  cases hx : net req with
  | response status respBody =>
    rw [sendRequest_response req net status respBody hx]
    by_cases h2 : 200 ≤ status ∧ status < 300
    · rw [if_pos h2]
    · rw [if_neg h2]
  | networkFailure desc =>
    rw [sendRequest_failure req net desc hx]

theorem sendRequest_result (req : HttpRequest) (net : Net) :
    ∃ rv, (sendRequest req net).outcome = CallOutcome.result rv := by
  cases hx : net req with
  | response status respBody =>
    rw [sendRequest_response req net status respBody hx]
    by_cases h2 : 200 ≤ status ∧ status < 300
    · exact ⟨{ success := true, msg := respBody }, by rw [if_pos h2]⟩
    · refine ⟨{ success := false,
                msg := Json.obj
                  [("error", Json.str (statusErrorText status))] },
              ?_⟩
      rw [if_neg h2]
  | networkFailure desc =>
    exact ⟨{ success := false,
             msg := Json.obj
               [("error", Json.str (connectionErrorText desc))] },
           by rw [sendRequest_failure req net desc hx]⟩

/-! ## Shared concrete inputs for witnesses -/

def exampleUrl : String := "https://example.com/data-manager-api"

def exampleCfg : ApiConfig :=
  { apiUrl := some exampleUrl, verifySslCert := true }

def exampleOkBody : Json := Json.obj [("id", Json.str "ok")]

def exampleNet : Net := fun _ => HttpOutcome.response 200 exampleOkBody

/-! ## The claims -/

/-- Claim C1, counterexample: with no base URL configured (and none from the
environment), `DmApi.ping` does NOT raise: it returns a `Result` value with
`success = false` and `msg = {'error': 'No API URL defined'}`, and issues no
network request — contradicting the claim that it raises a configuration
exception and returns no `Result` value. -/
theorem spec_c1_counterexample :
    (DmApi.ping
        { dm := { apiUrl := none, verifySslCert := true },
          asCfg := { apiUrl := none, verifySslCert := true } }
        (fun _ => HttpOutcome.networkFailure "server unreachable")
        "token").2 =
      { outcome := CallOutcome.result
          { success := false,
            msg := Json.obj [("error", Json.str "No API URL defined")] },
        requests := [] } := by
  rfl

/-- Claim C1, amended: calling any client operation before the base URL has
been configured fails fast by RETURNING a `Result` with `success = false`
and `msg = {'error': 'No API URL defined'}`; it raises no exception, issues
no network request, and so cannot fail with a network error. -/
theorem spec_c1 (cfg : ApiConfig) (net : Net) (p token : String)
    (body : Option Json) (h : cfg.apiUrl = none) :
    apiRequest cfg net p token body =
      { outcome := CallOutcome.result
          { success := false,
            msg := Json.obj [("error", Json.str noApiUrlError)] },
        requests := [] } :=
  apiRequest_none cfg net p token body h

/-- Claim C1, witness for the amended theorem. -/
theorem spec_c1_witness :
    apiRequest { apiUrl := none, verifySslCert := true }
        (fun _ => HttpOutcome.networkFailure "server unreachable")
        pingPath "token" none =
      { outcome := CallOutcome.result
          { success := false,
            msg := Json.obj [("error", Json.str noApiUrlError)] },
        requests := [] } :=
  spec_c1 { apiUrl := none, verifySslCert := true }
    (fun _ => HttpOutcome.networkFailure "server unreachable")
    pingPath "token" none rfl

/-- Claim C2: with a configured base URL, every client operation maps a 2xx
response to a returned `Result` with `success = true` and `msg` equal to the
decoded JSON body; a non-2xx response or a network failure to a returned
`Result` with `success = false` and a non-empty error description under the
key `error`; and in every case the outcome is a returned `Result` value — no
exception is raised for API-level failures. -/
theorem spec_c2 (cfg : ApiConfig) (net : Net) (p token : String)
    (body : Option Json) (url : String) (hurl : cfg.apiUrl = some url) :
    (∀ status respBody,
        net (buildRequest url p token cfg.verifySslCert body) =
          HttpOutcome.response status respBody →
        ((200 ≤ status ∧ status < 300) →
          (apiRequest cfg net p token body).outcome =
            CallOutcome.result { success := true, msg := respBody }) ∧
        (¬(200 ≤ status ∧ status < 300) →
          ∃ d, (apiRequest cfg net p token body).outcome =
              CallOutcome.result
                { success := false,
                  msg := Json.obj [("error", Json.str d)] } ∧
            0 < d.length)) ∧
    (∀ desc,
        net (buildRequest url p token cfg.verifySslCert body) =
          HttpOutcome.networkFailure desc →
        ∃ d, (apiRequest cfg net p token body).outcome =
            CallOutcome.result
              { success := false,
                msg := Json.obj [("error", Json.str d)] } ∧
          0 < d.length) ∧
    (∃ rv, (apiRequest cfg net p token body).outcome =
      CallOutcome.result rv) := by
  have hred := apiRequest_some cfg net p token body url hurl
  refine ⟨?_, ?_, ?_⟩
  · intro status respBody hnet
    rw [hred, sendRequest_response _ net status respBody hnet]
    constructor
    · intro h2
      rw [if_pos h2]
    · intro h2
      rw [if_neg h2]
      exact ⟨statusErrorText status, rfl, statusErrorText_length status⟩
  · intro desc hnet
    rw [hred, sendRequest_failure _ net desc hnet]
    exact ⟨connectionErrorText desc, rfl, connectionErrorText_length desc⟩
  · rw [hred]
    exact sendRequest_result _ net

/-- Claim C2, witness: a concrete 2xx exchange returns `success = true` with
the decoded body. -/
theorem spec_c2_witness :
    (apiRequest exampleCfg exampleNet pingPath "token" none).outcome =
      CallOutcome.result { success := true, msg := exampleOkBody } :=
  ((spec_c2 exampleCfg exampleNet pingPath "token" none exampleUrl
      rfl).1 200 exampleOkBody rfl).1 (by decide)

/-- Claim C3: `set_api_url(url, verify_ssl_cert)` stores the TLS flag (for
either client), and every HTTP request issued by an operation running
against a configuration whose flag is `b` carries TLS verification `b` —
so `verify_ssl_cert = false` disables and `true` (the default) enables
certificate verification on every outgoing request. -/
theorem spec_c3 (s : ClientState) (url : String) (b : Bool) :
    ((DmApi.set_api_url s url b).1.dm.verifySslCert = b ∧
     (AsApi.set_api_url s url b).1.asCfg.verifySslCert = b) ∧
    (∀ (cfg : ApiConfig) (net : Net) (p token : String)
        (body : Option Json) (r : HttpRequest),
      cfg.verifySslCert = b →
      r ∈ (apiRequest cfg net p token body).requests →
      r.verify = b) := by
  refine ⟨⟨rfl, rfl⟩, ?_⟩
  intro cfg net p token body r hv hr
  cases ha : cfg.apiUrl with
  | none =>
    rw [apiRequest_none cfg net p token body ha] at hr
    simp [noUrlEffect] at hr
  | some u =>
    rw [apiRequest_some cfg net p token body u ha,
      sendRequest_requests] at hr
    have hrr : r = buildRequest u p token cfg.verifySslCert body :=
      List.mem_singleton.mp hr
    subst hrr
    exact hv

/-- Claim C3, witness: a concrete operation call after configuring with
`verify_ssl_cert = true` issues its request with TLS verification on. -/
theorem spec_c3_witness :
    (buildRequest exampleUrl pingPath "token" true none).verify = true :=
  (spec_c3 { dm := exampleCfg, asCfg := exampleCfg } exampleUrl true).2
    exampleCfg exampleNet pingPath "token" none
    (buildRequest exampleUrl pingPath "token" true none) rfl
    (List.mem_singleton_self _)

/-- Claim C4: `set_api_url` overwrites exactly the client's
`{base_url, verify_ssl}` configuration, leaves everything else unchanged,
and issues no network request; every operation leaves the process state
unchanged and reads the shared configuration (its effect is exactly
`apiRequest` applied to the stored configuration). -/
theorem spec_c4 (s t : ClientState) (url token : String) (b : Bool)
    (net : Net) (project_id name : String)
    (specMap : List (String × Json)) :
    (DmApi.set_api_url s url b).1.dm =
      { apiUrl := some url, verifySslCert := b } ∧
    (DmApi.set_api_url s url b).1.asCfg = s.asCfg ∧
    (DmApi.set_api_url s url b).2 = [] ∧
    (DmApi.ping t net token).1 = t ∧
    (DmApi.start_job_instance t net token project_id name specMap).1 = t ∧
    (AsApi.ping t net token).1 = t ∧
    (DmApi.ping t net token).2 = apiRequest t.dm net pingPath token none ∧
    (AsApi.ping t net token).2 = apiRequest t.asCfg net pingPath token none :=
  ⟨rfl, rfl, rfl, rfl, rfl, rfl, rfl, rfl⟩

/-- Claim C5: every client operation issues at most one HTTP request per
call, and with a configured base URL exactly one — the single request built
from the caller's own bearer token; there is no retry loop and no internal
re-authentication in the library. -/
theorem spec_c5 (cfg : ApiConfig) (net : Net) (p token : String)
    (body : Option Json) :
    (apiRequest cfg net p token body).requests.length ≤ 1 ∧
    (∀ url, cfg.apiUrl = some url →
      (apiRequest cfg net p token body).requests =
        [buildRequest url p token cfg.verifySslCert body]) := by
  constructor
  · cases ha : cfg.apiUrl with
    | none =>
      rw [apiRequest_none cfg net p token body ha]
      simp [noUrlEffect]
    | some u =>
      rw [apiRequest_some cfg net p token body u ha, sendRequest_requests]
      simp
  · intro url hurl
    rw [apiRequest_some cfg net p token body url hurl, sendRequest_requests]

/-- Claim C5, witness: a concrete configured call issues exactly the one
request carrying the caller's token. -/
theorem spec_c5_witness :
    (apiRequest exampleCfg exampleNet pingPath "token" none).requests =
      [buildRequest exampleUrl pingPath "token" true none] :=
  (spec_c5 exampleCfg exampleNet pingPath "token" none).2 exampleUrl rfl

/-- Claim C6: `start_job_instance`, called with a specification mapping
holding the `collection`, `job` and `version` keys against a server whose
documented successful start-instance responses carry `task_id` and
`instance_id`, returns on success (`success = true`) a `msg` containing
both the `task_id` and `instance_id` keys. -/
theorem spec_c6 (s : ClientState) (net : Net)
    (token project_id name : String) (specMap : List (String × Json))
    (_hspec : (Json.obj specMap).hasKey "collection" = true ∧
      (Json.obj specMap).hasKey "job" = true ∧
      (Json.obj specMap).hasKey "version" = true)
    (hserver : ∀ url, s.dm.apiUrl = some url →
      ∀ status respBody,
        net (buildRequest url (startInstancePath project_id) token
          s.dm.verifySslCert (some (startJobBody name specMap))) =
          HttpOutcome.response status respBody →
        200 ≤ status ∧ status < 300 →
        respBody.hasKey "task_id" = true ∧
        respBody.hasKey "instance_id" = true)
    (rv : DmApiRv)
    (hrv : (DmApi.start_job_instance s net token project_id name
      specMap).2.outcome = CallOutcome.result rv)
    (hsucc : rv.success = true) :
    rv.msg.hasKey "task_id" = true ∧
    rv.msg.hasKey "instance_id" = true := by
  have heq : (DmApi.start_job_instance s net token project_id name
      specMap).2 =
      apiRequest s.dm net (startInstancePath project_id) token
        (some (startJobBody name specMap)) := rfl
  rw [heq] at hrv
  cases ha : s.dm.apiUrl with
  | none =>
    rw [apiRequest_none _ _ _ _ _ ha] at hrv
    have hrv2 := CallOutcome.result.inj hrv
    rw [← hrv2] at hsucc
    exact Bool.noConfusion hsucc
  | some url =>
    rw [apiRequest_some _ _ _ _ _ url ha] at hrv
    cases hx : net (buildRequest url (startInstancePath project_id) token
        s.dm.verifySslCert (some (startJobBody name specMap))) with
    | response status respBody =>
      rw [sendRequest_response _ _ status respBody hx] at hrv
      by_cases h2 : 200 ≤ status ∧ status < 300
      · rw [if_pos h2] at hrv
        have hrv2 := CallOutcome.result.inj hrv
        rw [← hrv2]
        exact hserver url ha status respBody hx h2
      · rw [if_neg h2] at hrv
        have hrv2 := CallOutcome.result.inj hrv
        rw [← hrv2] at hsucc
        exact Bool.noConfusion hsucc
    | networkFailure desc =>
      rw [sendRequest_failure _ _ desc hx] at hrv
      have hrv2 := CallOutcome.result.inj hrv
      rw [← hrv2] at hsucc
      exact Bool.noConfusion hsucc

/-- The specification mapping of the documented example scenario. -/
def exampleSpecMap : List (String × Json) :=
  [("collection", Json.str "im-test"), ("job", Json.str "nop"),
   ("version", Json.str "1.0.0")]

/-- The documented successful start-instance payload shape. -/
def exampleJobBody : Json :=
  Json.obj [("task_id", Json.str "task-0000"),
            ("instance_id", Json.str "instance-0000")]

/-- A server answering every request with HTTP 201 and the documented
start-instance payload. -/
def exampleJobNet : Net := fun _ => HttpOutcome.response 201 exampleJobBody

/-- Claim C6, witness: the documented example scenario at concrete inputs. -/
theorem spec_c6_witness :
    Json.hasKey exampleJobBody "task_id" = true ∧
    Json.hasKey exampleJobBody "instance_id" = true :=
  spec_c6 { dm := exampleCfg, asCfg := exampleCfg } exampleJobNet
    "token" "project-0000" "My Job" exampleSpecMap
    ⟨rfl, rfl, rfl⟩
    (by
      intro url hu status respBody hx h2
      injection hx with h1 h3
      subst h1
      subst h3
      exact ⟨rfl, rfl⟩)
    { success := true, msg := exampleJobBody }
    rfl rfl

/-- Claim C7: at module load the base URLs are sourced from the
`SQUONK2_DMAPI_URL` / `SQUONK2_ASAPI_URL` environment variables; once an
explicit `set_api_url` call is made its values replace any
environment-sourced values, whatever the environment held, and every
subsequent operation sends its request to the explicitly configured URL
with the explicitly configured TLS flag. -/
theorem spec_c7 (env : Environ) (url token : String) (b : Bool)
    (net : Net) :
    (initState env).dm.apiUrl = env.SQUONK2_DMAPI_URL ∧
    (initState env).asCfg.apiUrl = env.SQUONK2_ASAPI_URL ∧
    (DmApi.set_api_url (initState env) url b).1.dm =
      { apiUrl := some url, verifySslCert := b } ∧
    (AsApi.set_api_url (initState env) url b).1.asCfg =
      { apiUrl := some url, verifySslCert := b } ∧
    (DmApi.ping (DmApi.set_api_url (initState env) url b).1 net
      token).2.requests = [buildRequest url pingPath token b none] := by
  refine ⟨rfl, rfl, rfl, rfl, ?_⟩
  have h1 : (DmApi.ping (DmApi.set_api_url (initState env) url b).1 net
      token).2 = sendRequest (buildRequest url pingPath token b none) net :=
    apiRequest_some { apiUrl := some url, verifySslCert := b } net pingPath
      token none url rfl
  rw [h1, sendRequest_requests]

theorem get_access_token_issued (idp : AuthRequest → IdpOutcome)
    (a r c u p t : String)
    (h : idp (mkAuthRequest a r c u p) = IdpOutcome.issued t) :
    Auth.get_access_token idp a r c u p =
      (AuthResult.token t, [mkAuthRequest a r c u p]) := by
  unfold Auth.get_access_token
  rw [h]

theorem get_access_token_rejected (idp : AuthRequest → IdpOutcome)
    (a r c u p why : String)
    (h : idp (mkAuthRequest a r c u p) = IdpOutcome.rejected why) :
    Auth.get_access_token idp a r c u p =
      (AuthResult.authenticationError ("rejected: " ++ why),
       [mkAuthRequest a r c u p]) := by
  unfold Auth.get_access_token
  rw [h]

theorem get_access_token_unreachable (idp : AuthRequest → IdpOutcome)
    (a r c u p why : String)
    (h : idp (mkAuthRequest a r c u p) = IdpOutcome.unreachable why) :
    Auth.get_access_token idp a r c u p =
      (AuthResult.authenticationError ("unreachable: " ++ why),
       [mkAuthRequest a r c u p]) := by
  unfold Auth.get_access_token
  rw [h]

/-- Claim C8: `get_access_token` returns the issued token string when the
identity provider issues one; it produces an `AuthenticationError` exactly
when the provider rejects the credentials or is unreachable; and it
contacts the provider exactly once — no retry. -/
theorem spec_c8 (idp : AuthRequest → IdpOutcome)
    (authUrl realm clientId username password : String) :
    (∀ t, idp (mkAuthRequest authUrl realm clientId username password) =
        IdpOutcome.issued t →
      (Auth.get_access_token idp authUrl realm clientId username
        password).1 = AuthResult.token t) ∧
    (∀ why, idp (mkAuthRequest authUrl realm clientId username password) =
        IdpOutcome.rejected why →
      ∃ d, (Auth.get_access_token idp authUrl realm clientId username
        password).1 = AuthResult.authenticationError d) ∧
    (∀ why, idp (mkAuthRequest authUrl realm clientId username password) =
        IdpOutcome.unreachable why →
      ∃ d, (Auth.get_access_token idp authUrl realm clientId username
        password).1 = AuthResult.authenticationError d) ∧
    (∀ d, (Auth.get_access_token idp authUrl realm clientId username
        password).1 = AuthResult.authenticationError d →
      (∃ why, idp (mkAuthRequest authUrl realm clientId username
        password) = IdpOutcome.rejected why) ∨
      (∃ why, idp (mkAuthRequest authUrl realm clientId username
        password) = IdpOutcome.unreachable why)) ∧
    (Auth.get_access_token idp authUrl realm clientId username
      password).2 =
      [mkAuthRequest authUrl realm clientId username password] := by
  refine ⟨?_, ?_, ?_, ?_, ?_⟩
  · intro t h
    rw [get_access_token_issued idp authUrl realm clientId username
      password t h]
  · intro why h
    exact ⟨"rejected: " ++ why,
      by rw [get_access_token_rejected idp authUrl realm clientId username
        password why h]⟩
  · intro why h
    exact ⟨"unreachable: " ++ why,
      by rw [get_access_token_unreachable idp authUrl realm clientId
        username password why h]⟩
  · intro d h
    cases hx : idp (mkAuthRequest authUrl realm clientId username
        password) with
    | issued t =>
      rw [get_access_token_issued idp authUrl realm clientId username
        password t hx] at h
      exact AuthResult.noConfusion h
    | rejected why => exact Or.inl ⟨why, rfl⟩
    | unreachable why => exact Or.inr ⟨why, rfl⟩
  · cases hx : idp (mkAuthRequest authUrl realm clientId username
        password) with
    | issued t =>
      rw [get_access_token_issued idp authUrl realm clientId username
        password t hx]
    | rejected why =>
      rw [get_access_token_rejected idp authUrl realm clientId username
        password why hx]
    | unreachable why =>
      rw [get_access_token_unreachable idp authUrl realm clientId username
        password why hx]

/-- An identity provider that issues a fixed token to every request. -/
def exampleIdp : AuthRequest → IdpOutcome :=
  fun _ => IdpOutcome.issued "token-0000"

/-- Claim C8, witness: against a provider that issues a token, the helper
returns exactly that token string. -/
theorem spec_c8_witness :
    (Auth.get_access_token exampleIdp "https://example.com/auth" "squonk"
      "data-manager-api" "user1" "blob1234").1 =
      AuthResult.token "token-0000" :=
  (spec_c8 exampleIdp "https://example.com/auth" "squonk"
    "data-manager-api" "user1" "blob1234").1 "token-0000" rfl

/-- Claim C9: for the environment-driven SSL flag of either client,
certificate verification is enabled exactly when the controlling variable
(`SQUONK2_DMAPI_VERIFY_SSL_CERT` / `SQUONK2_ASAPI_VERIFY_SSL_CERT`) holds
the exact string `"yes"` or is unset (its default); any other value
disables verification. -/
theorem spec_c9 (env : Environ) :
    ((initDmConfig env).verifySslCert = true ↔
      (env.SQUONK2_DMAPI_VERIFY_SSL_CERT = some "yes" ∨
       env.SQUONK2_DMAPI_VERIFY_SSL_CERT = none)) ∧
    ((initAsConfig env).verifySslCert = true ↔
      (env.SQUONK2_ASAPI_VERIFY_SSL_CERT = some "yes" ∨
       env.SQUONK2_ASAPI_VERIFY_SSL_CERT = none)) := by
  constructor
  · simp only [initDmConfig]
    cases env.SQUONK2_DMAPI_VERIFY_SSL_CERT with
    | none => simp [envVerifySsl]
    | some v => simp [envVerifySsl]
  · simp only [initAsConfig]
    cases env.SQUONK2_ASAPI_VERIFY_SSL_CERT with
    | none => simp [envVerifySsl]
    | some v => simp [envVerifySsl]

/-- Claim C10: the two clients hold independent configurations:
`DmApi.set_api_url` leaves the Account Server configuration unchanged,
`AsApi.set_api_url` leaves the Data Manager configuration unchanged, and
each client's operations depend only on its own configuration. -/
theorem spec_c10 (s t : ClientState) (url token : String) (b : Bool)
    (net : Net) :
    (DmApi.set_api_url s url b).1.asCfg = s.asCfg ∧
    (AsApi.set_api_url s url b).1.dm = s.dm ∧
    (s.dm = t.dm →
      (DmApi.ping s net token).2 = (DmApi.ping t net token).2) ∧
    (s.asCfg = t.asCfg →
      (AsApi.ping s net token).2 = (AsApi.ping t net token).2) := by
  refine ⟨rfl, rfl, ?_, ?_⟩
  · intro h
    show apiRequest s.dm net pingPath token none =
      apiRequest t.dm net pingPath token none
    rw [h]
  · intro h
    show apiRequest s.asCfg net pingPath token none =
      apiRequest t.asCfg net pingPath token none
    rw [h]

/-- Claim C10, witness: two states sharing the Data Manager configuration
but differing on the Account Server one give identical `DmApi.ping`
behaviour. -/
theorem spec_c10_witness :
    (DmApi.ping { dm := exampleCfg, asCfg := exampleCfg } exampleNet
      "token").2 =
    (DmApi.ping { dm := exampleCfg,
                  asCfg := { apiUrl := none, verifySslCert := false } }
      exampleNet "token").2 :=
  (spec_c10 { dm := exampleCfg, asCfg := exampleCfg }
    { dm := exampleCfg,
      asCfg := { apiUrl := none, verifySslCert := false } }
    exampleUrl "token" true exampleNet).2.2.1 rfl
